import Mathlib

/-!
Verification of the Addressable duck-type fragment
(`apis/duck/v1/addressable_types.go`).

The Go source is shallowly embedded: each struct becomes a Lean structure
with pointer/optional fields as `Option`, Go slices as `List`, and the JSON
(de)serialization induced by the struct tags as explicit marshal/unmarshal
functions over a small JSON value model.  Methods that could mutate their
receiver or a pointer argument are translated in state-passing style,
returning the (possibly updated) receiver and argument alongside the result.
-/

namespace Duck

/-- Modelled from the spec: the consumed URL value type (`knative.dev/pkg/apis.URL`,
whose source is not part of this repository) — "an optional structured URL with
scheme, host, path, query, fragment".  The spec guarantees the type supports
"absolute-URL parsing and round-trip serialization", so its canonical encoding
is injective; the JSON model below therefore keeps URL values as a leaf. -/
structure URL where
  scheme : String
  host : String
  path : String
  query : String
  fragment : String
deriving DecidableEq, Repr

/-- `Addressable` from `addressable_types.go`: an optional name, URL,
CA-certificate bundle (PEM) and OIDC audience.  Go pointer fields become
`Option`; a `none` field is absent, mirroring a nil pointer. -/
structure Addressable where
  name : Option String
  url : Option URL
  cacerts : Option String
  audience : Option String
deriving DecidableEq, Repr

/-- Abridged model of the external `metav1.TypeMeta` dependency: the two
fields the Go struct declares. -/
structure TypeMeta where
  kind : String
  apiVersion : String
deriving DecidableEq, Repr

/-- Abridged model of the external `metav1.ObjectMeta` dependency:
representative fields (the fragment never reads or writes any of them). -/
structure ObjectMeta where
  name : String
  namespc : String
  labels : List (String × String)
deriving DecidableEq, Repr

/-- Abridged model of the external `metav1.ListMeta` dependency. -/
structure ListMeta where
  resourceVersion : String
  continueToken : String
deriving DecidableEq, Repr

/-- `AddressStatus` from `addressable_types.go`: an optional scalar address
plus a list of addresses.  A Go nil slice and an empty slice are both
represented by `[]` (both are "absent or empty" and both are dropped by
`omitempty`). -/
structure AddressStatus where
  address : Option Addressable
  addresses : List Addressable
deriving DecidableEq, Repr

/-- `AddressableType` from `addressable_types.go`: the conformance skeleton
wrapping `AddressStatus`. -/
structure AddressableType where
  typeMeta : TypeMeta
  objectMeta : ObjectMeta
  status : AddressStatus
deriving DecidableEq, Repr

/-- `AddressableTypeList` from `addressable_types.go`. -/
structure AddressableTypeList where
  typeMeta : TypeMeta
  listMeta : ListMeta
  items : List AddressableType
deriving DecidableEq, Repr

/-- JSON value model for the canonical object encoding.  A URL marshals to
its canonical string form; since that encoding is injective (§6 of the spec:
the URL type round-trips), URL values are kept as a leaf constructor. -/
inductive Json where
  | str : String → Json
  | obj : List (String × Json) → Json
  | arr : List Json → Json
  | url : URL → Json

/-- Marshal an `Addressable` to a JSON object (as a key/value list), following
the struct tags: keys `name`, `url`, `CACerts`, `audience`, each with
`omitempty` so an absent (`none`) field contributes no key. -/
def marshalAddressable (a : Addressable) : List (String × Json) :=
  (match a.name with | some n => [("name", Json.str n)] | none => []) ++
  (match a.url with | some u => [("url", Json.url u)] | none => []) ++
  (match a.cacerts with | some c => [("CACerts", Json.str c)] | none => []) ++
  (match a.audience with | some au => [("audience", Json.str au)] | none => [])

/-- Read an optional string-valued field: a missing key is an absent field,
a present key must hold a string. -/
def asStr : Option Json → Option (Option String)
  | none => some none
  | some (Json.str s) => some (some s)
  | some _ => none

/-- Read an optional URL-valued field. -/
def asUrl : Option Json → Option (Option URL)
  | none => some none
  | some (Json.url u) => some (some u)
  | some _ => none

/-- Unmarshal an `Addressable` from a JSON object: each tagged key is looked
up; a missing key leaves the field absent (`none`). -/
def unmarshalAddressable (o : List (String × Json)) : Option Addressable := do
  let n ← asStr (o.lookup "name")
  let u ← asUrl (o.lookup "url")
  let c ← asStr (o.lookup "CACerts")
  let au ← asStr (o.lookup "audience")
  pure ⟨n, u, c, au⟩

/-- Marshal an `AddressStatus` following its struct tags: key `address`
(omitempty, so dropped when nil) and key `addresses` (omitempty, so dropped
when the slice is nil or empty). -/
def marshalAddressStatus (s : AddressStatus) : List (String × Json) :=
  (match s.address with
    | some a => [("address", Json.obj (marshalAddressable a))]
    | none => []) ++
  (if s.addresses.isEmpty then []
   else [("addresses", Json.arr (s.addresses.map (fun a => Json.obj (marshalAddressable a))))])

/-- A counterpart value handed to the conversion entry points
(`apis.Convertible` in the Go source, an interface type), represented by the
one attribute the stubs consult: its concrete dynamic type identity, the
string Go's `%T` verb prints for it. -/
structure Convertible where
  typeName : String
deriving DecidableEq, Repr

/-- `Addressable.ConvertTo`: always fails with
`"v1 is the highest known version, got: %T"`.  State-passing translation of
a Go method on pointer receiver `a` with pointer-interface argument `to`:
the result carries the error together with the receiver and the argument as
they stand after the call (the body writes neither, so both pass through). -/
def Addressable.ConvertTo (a : Addressable) (tgt : Convertible) :
    Except String Unit × Addressable × Convertible :=
  (Except.error ("v1 is the highest known version, got: " ++ tgt.typeName), a, tgt)

/-- `Addressable.ConvertFrom`: identical failure, for the source argument. -/
def Addressable.ConvertFrom (a : Addressable) (src : Convertible) :
    Except String Unit × Addressable × Convertible :=
  (Except.error ("v1 is the highest known version, got: " ++ src.typeName), a, src)

/-- `Addressable.GetFullType`: returns `&AddressableType{}`, the zero-value
conformance skeleton. -/
def Addressable.GetFullType (_ : Addressable) : AddressableType :=
  ⟨⟨"", ""⟩, ⟨"", "", []⟩, ⟨none, []⟩⟩

/-- `AddressableType.Populate`: overwrites the whole `Status` with the fixed
sample — scalar address named `"http"` with URL `http://foo.com` and no
other field set.  State-passing translation of the Go pointer-receiver
method: the result is the updated receiver. -/
def AddressableType.Populate (t : AddressableType) : AddressableType :=
  { t with status :=
      { address := some
          { name := some "http"
            url := some { scheme := "http", host := "foo.com", path := "", query := "", fragment := "" }
            cacerts := none
            audience := none }
        addresses := [] } }

/-- Group/version/kind triple (`schema.GroupVersionKind` from the k8s
dependency). -/
structure GroupVersionKind where
  group : String
  version : String
  kind : String
deriving DecidableEq, Repr

/-- Split a character list at its first `'/'` (the model of Go's
`gv[:strings.Index(gv, "/")]` / `gv[strings.Index(gv, "/")+1:]`). -/
def breakAtSlash : List Char → List Char × List Char
  | [] => ([], [])
  | c :: cs =>
    if c = '/' then ([], cs)
    else
      let (b, rest) := breakAtSlash cs
      (c :: b, rest)

/-- Model of `schema.ParseGroupVersion` from the k8s.io/apimachinery
dependency: `""` and `"/"` parse to the empty group/version, a string with
no slash (`strings.Count` = 0) is a bare version, exactly one slash splits
group/version at it, and more slashes are an error. -/
def parseGroupVersion (gv : String) : Option (String × String) :=
  if gv = "" ∨ gv = "/" then some ("", "")
  else match gv.data.count '/' with
    | 0 => some ("", gv)
    | 1 => some (⟨(breakAtSlash gv.data).1⟩, ⟨(breakAtSlash gv.data).2⟩)
    | _ => none

/-- Model of `metav1.FromAPIVersionAndKind` from the k8s.io/apimachinery
dependency, the function `TypeMeta.GroupVersionKind()` delegates to: parse
the apiVersion; on a parse error keep only the kind. -/
def fromAPIVersionAndKind (apiVersion kind : String) : GroupVersionKind :=
  match parseGroupVersion apiVersion with
  | some (g, v) => ⟨g, v, kind⟩
  | none => ⟨"", "", kind⟩

/-- `AddressableType.GetGroupVersionKind`: returns `t.GroupVersionKind()`,
i.e. the triple parsed from the receiver's embedded `TypeMeta` fields. -/
def AddressableType.GetGroupVersionKind (t : AddressableType) : GroupVersionKind :=
  fromAPIVersionAndKind t.typeMeta.apiVersion t.typeMeta.kind

/-- `AddressableType.GetListType`: returns `&AddressableTypeList{}`, the
zero-value list instance. -/
def AddressableType.GetListType (_ : AddressableType) : AddressableTypeList :=
  ⟨⟨"", ""⟩, ⟨"", ""⟩, []⟩

/-- Modelled from the spec: the consumer-side destination-resolution rule for
`AddressStatus` (no consumer lives in this repository; the source only states
the rule in the field comments).  "If `addresses` is present and non-empty,
`address` is ignored by consumers.  Otherwise, if `address` is present, it is
the sole destination.  If both are absent, the owner is not yet ready for
delivery." -/
def resolveDestinations (s : AddressStatus) : List Addressable :=
  if s.addresses.isEmpty then
    match s.address with
    | some a => [a]
    | none => []
  else s.addresses

/-- The kind component of `fromAPIVersionAndKind` is always the kind passed in. -/
theorem fromAPIVersionAndKind_kind (v k : String) : (fromAPIVersionAndKind v k).kind = k := by
  unfold fromAPIVersionAndKind
  rcases parseGroupVersion v with _ | ⟨g, v'⟩ <;> rfl

/-- C1: Both conversion entry points fail unconditionally — `ConvertTo` never
returns success for any counterpart, the error carries the counterpart's
concrete type identity, and `ConvertFrom` has the same property for its
source argument. -/
theorem convert_stubs_always_error_with_type_identity
    (a : Addressable) (tgt src : Convertible) :
    (∀ u, (a.ConvertTo tgt).1 ≠ Except.ok u) ∧
    (∃ msg, (a.ConvertTo tgt).1 = Except.error msg ∧ tgt.typeName.data <:+ msg.data) ∧
    (∀ u, (a.ConvertFrom src).1 ≠ Except.ok u) ∧
    (∃ msg, (a.ConvertFrom src).1 = Except.error msg ∧ src.typeName.data <:+ msg.data) := by
  refine ⟨fun u h => by simp [Addressable.ConvertTo] at h,
    ⟨_, rfl, ?_⟩,
    fun u h => by simp [Addressable.ConvertFrom] at h,
    ⟨_, rfl, ?_⟩⟩ <;>
  · rw [String.data_append]
    exact List.suffix_append _ _

/-- C2: Every `Addressable` — whichever subset of its four optional fields is
populated — marshals and unmarshals back to a field-equal value (absent fields
stay absent), and the all-unset value marshals to the empty object. -/
theorem addressable_roundtrip (a : Addressable) :
    unmarshalAddressable (marshalAddressable a) = some a ∧
    marshalAddressable ⟨none, none, none, none⟩ = [] := by
  obtain ⟨n, u, c, au⟩ := a
  refine ⟨?_, rfl⟩
  cases n <;> cases u <;> cases c <;> cases au <;> rfl

/-- C3: Destination resolution obeys the precedence rule: a non-empty
`addresses` list is selected from and the scalar ignored; with `addresses`
absent/empty a present `address` is the sole destination; with both absent no
destination is chosen. -/
theorem resolveDestinations_precedence (s : AddressStatus) :
    (s.addresses ≠ [] → resolveDestinations s = s.addresses) ∧
    (∀ a, s.addresses = [] → s.address = some a → resolveDestinations s = [a]) ∧
    (s.addresses = [] → s.address = none → resolveDestinations s = []) := by
  obtain ⟨ad, ads⟩ := s
  refine ⟨fun h => ?_, fun a h₁ h₂ => ?_, fun h₁ h₂ => ?_⟩
  · cases ads with
    | nil => exact absurd rfl h
    | cons x xs => rfl
  · cases h₁; cases h₂; rfl
  · cases h₁; cases h₂; rfl

/-- Witness for C3 at concrete inputs: with both the scalar and a non-empty
list set the list wins; an empty status resolves to no destination. -/
theorem resolveDestinations_precedence_witness :
    resolveDestinations
        ⟨some ⟨none, some ⟨"http", "a", "", "", ""⟩, none, none⟩,
          [⟨none, some ⟨"https", "a", "", "", ""⟩, none, none⟩]⟩ =
      [⟨none, some ⟨"https", "a", "", "", ""⟩, none, none⟩] ∧
    resolveDestinations ⟨some ⟨some "x", none, none, none⟩, []⟩ =
      [⟨some "x", none, none, none⟩] ∧
    resolveDestinations ⟨none, []⟩ = [] :=
  ⟨(resolveDestinations_precedence _).1 (by simp),
   (resolveDestinations_precedence _).2.1 _ rfl rfl,
   (resolveDestinations_precedence _).2.2 rfl rfl⟩

/-- C4: `Populate` on any skeleton yields a present scalar address with name
`"http"`, URL scheme `"http"` and host `"foo.com"`, and no trust bundle or
audience. -/
theorem populate_sets_sample_address (t : AddressableType) :
    ∃ addr, (t.Populate).status.address = some addr ∧
      addr.name = some "http" ∧
      addr.url.map URL.scheme = some "http" ∧
      addr.url.map URL.host = some "foo.com" ∧
      addr.cacerts = none ∧ addr.audience = none :=
  ⟨_, rfl, rfl, rfl, rfl, rfl, rfl⟩

/-- Counterexample to C5: after `Populate` on a zero skeleton, the only
reachable `Addressable` is the scalar address, whose `audience` and trust
bundle are absent, and the `addresses` list is empty — so the audience and
trust-bundle field paths are absent on every reachable object, contradicting
"every field documented in the data model is non-absent on at least one
reachable object". -/
theorem populate_leaves_fields_absent_cex :
    ((AddressableType.Populate ⟨⟨"", ""⟩, ⟨"", "", []⟩, ⟨none, []⟩⟩).status.address.map
        Addressable.audience) = some none ∧
    ((AddressableType.Populate ⟨⟨"", ""⟩, ⟨"", "", []⟩, ⟨none, []⟩⟩).status.address.map
        Addressable.cacerts) = some none ∧
    (AddressableType.Populate ⟨⟨"", ""⟩, ⟨"", "", []⟩, ⟨none, []⟩⟩).status.addresses = [] :=
  ⟨rfl, rfl, rfl⟩

/-- C5 (amended): after `Populate`, the scalar address and its name and url
are non-absent, while the trust bundle, audience and the addresses list are
left absent — the populator covers only the address/name/url field paths. -/
theorem populate_field_coverage_amended (t : AddressableType) :
    ((t.Populate).status.address.map Addressable.name) = some (some "http") ∧
    ((t.Populate).status.address.map (fun a => a.url.isSome)) = some true ∧
    ((t.Populate).status.address.map Addressable.cacerts) = some none ∧
    ((t.Populate).status.address.map Addressable.audience) = some none ∧
    (t.Populate).status.addresses = [] :=
  ⟨rfl, rfl, rfl, rfl, rfl⟩

/-- C6: the serialized keys of an `Addressable` are exactly `name`, `url`,
`CACerts`, `audience` — each present precisely when the field is set — and an
`AddressStatus` serializes under `address` and `addresses`, likewise omitted
when absent (or, for the list, empty). -/
theorem serialized_keys (a : Addressable) (s : AddressStatus) :
    (marshalAddressable a).map Prod.fst =
      (if a.name.isSome then ["name"] else []) ++
      (if a.url.isSome then ["url"] else []) ++
      (if a.cacerts.isSome then ["CACerts"] else []) ++
      (if a.audience.isSome then ["audience"] else []) ∧
    (marshalAddressStatus s).map Prod.fst =
      (if s.address.isSome then ["address"] else []) ++
      (if s.addresses.isEmpty then [] else ["addresses"]) := by
  obtain ⟨n, u, c, au⟩ := a
  obtain ⟨ad, ads⟩ := s
  refine ⟨?_, ?_⟩
  · cases n <;> cases u <;> cases c <;> cases au <;> rfl
  · cases ad <;> cases ads <;> rfl

/-- Counterexample to C7: `GetGroupVersionKind` is not a fixed triple — it is
parsed from the instance's embedded `TypeMeta`, so a zero skeleton reports the
empty triple while a skeleton whose TypeMeta is set reports that metadata. -/
theorem gvk_varies_with_typemeta_cex :
    (AddressableType.GetGroupVersionKind ⟨⟨"", ""⟩, ⟨"", "", []⟩, ⟨none, []⟩⟩) =
      ⟨"", "", ""⟩ ∧
    (AddressableType.GetGroupVersionKind
        ⟨⟨"AddressableType", "duck.knative.dev/v1"⟩, ⟨"", "", []⟩, ⟨none, []⟩⟩) =
      ⟨"duck.knative.dev", "v1", "AddressableType"⟩ ∧
    (⟨"", "", ""⟩ : GroupVersionKind) ≠
      ⟨"duck.knative.dev", "v1", "AddressableType"⟩ := by
  refine ⟨rfl, ?_, by decide⟩
  rfl

/-- C7 (amended): `GetGroupVersionKind` is determined by the instance's
embedded `TypeMeta` alone — equal TypeMeta yields equal triples, and the kind
component is the TypeMeta's kind. -/
theorem gvk_from_typemeta_amended (t₁ t₂ : AddressableType)
    (h : t₁.typeMeta = t₂.typeMeta) :
    t₁.GetGroupVersionKind = t₂.GetGroupVersionKind ∧
    t₁.GetGroupVersionKind.kind = t₁.typeMeta.kind := by
  unfold AddressableType.GetGroupVersionKind
  rw [h]
  exact ⟨rfl, fromAPIVersionAndKind_kind _ _⟩

/-- Witness for C7 (amended): two skeletons sharing a TypeMeta but differing
in metadata and status report the same triple, whose kind is `"Foo"`. -/
theorem gvk_from_typemeta_amended_witness :
    (AddressableType.GetGroupVersionKind ⟨⟨"Foo", "v1"⟩, ⟨"a", "b", []⟩, ⟨none, []⟩⟩) =
      (AddressableType.GetGroupVersionKind
        ⟨⟨"Foo", "v1"⟩, ⟨"c", "d", [("k", "v")]⟩, ⟨some ⟨none, none, none, none⟩, []⟩⟩) ∧
    (AddressableType.GetGroupVersionKind
        ⟨⟨"Foo", "v1"⟩, ⟨"a", "b", []⟩, ⟨none, []⟩⟩).kind = "Foo" :=
  gvk_from_typemeta_amended _ _ rfl

/-- C8: `GetListType` returns the zero-value list instance, whose `items` are
a (here empty) list of `AddressableType` skeletons, and `GetFullType` returns
the zero-value `AddressableType` skeleton. -/
theorem list_and_full_type_hooks (t : AddressableType) (a : Addressable) :
    t.GetListType = ⟨⟨"", ""⟩, ⟨"", ""⟩, ([] : List AddressableType)⟩ ∧
    (t.GetListType).items = ([] : List AddressableType) ∧
    a.GetFullType = ⟨⟨"", ""⟩, ⟨"", "", []⟩, ⟨none, []⟩⟩ :=
  ⟨rfl, rfl, rfl⟩

/-- C9: the conversion stubs are atomic on error — both calls fail, and the
receiver and the counterpart come out of the call exactly as they went in. -/
theorem convert_stubs_atomic (a : Addressable) (tgt src : Convertible) :
    (a.ConvertTo tgt).2 = (a, tgt) ∧
    (∃ e, (a.ConvertTo tgt).1 = Except.error e) ∧
    (a.ConvertFrom src).2 = (a, src) ∧
    (∃ e, (a.ConvertFrom src).1 = Except.error e) :=
  ⟨rfl, ⟨_, rfl⟩, rfl, ⟨_, rfl⟩⟩

/-- C10: `Populate` replaces the whole status with the fixed sample —
clearing any prior addresses list, trust bundle or audience — while leaving
TypeMeta and ObjectMeta untouched. -/
theorem populate_replaces_status_frames_meta (t : AddressableType) :
    (t.Populate).typeMeta = t.typeMeta ∧
    (t.Populate).objectMeta = t.objectMeta ∧
    (t.Populate).status =
      ⟨some ⟨some "http", some ⟨"http", "foo.com", "", "", ""⟩, none, none⟩, []⟩ :=
  ⟨rfl, rfl, rfl⟩

end Duck
